import Mathlib

/-!
Shallow embedding of `src/trunk/src/app/srs_app_srt_source.cpp` (the SRT
source of SRS): packet buffers, consumer queues, the per-stream source and
its registry, and the TS → RTMP/FLV frame builder.  External collaborators
(the TS PES parser, the raw AVC/AAC bitstream helpers, the downstream
bridge, logging and statistics) are abstracted as data or oracle functions;
everything else is translated from the C++ source.  Bytes are `Nat` values,
machine-integer overflow is modelled with explicit `% 2 ^ w` where the C++
width matters.
-/

/-- A byte of payload data. -/
abbrev Byte := Nat

/-- Model of `SrsSharedPtrMessage` as used by this file: a refcounted byte buffer.
`payload` holds the backing bytes; the C++ `size` field always equals the
allocated length here, so it is `payload.length`.  A refcount share
(`copy2`) yields a handle over the very same bytes. -/
structure SrsSharedPtrMessage where
  payload : List Byte
deriving Repr, DecidableEq

/-- The C++ `size` field of the shared message (allocated buffer length). -/
def SrsSharedPtrMessage.size (m : SrsSharedPtrMessage) : Nat :=
  m.payload.length

/-- Model of `SrsSharedPtrMessage::copy2`: a new handle sharing the same bytes. -/
def SrsSharedPtrMessage.copy2 (m : SrsSharedPtrMessage) : SrsSharedPtrMessage :=
  m

/-- Model of `SrsSrtPacket`: an owned byte blob.  `shared_buffer` models the
`shared_buffer_` pointer (`none` = NULL), `actual_buffer_size` models
`actual_buffer_size_`. -/
structure SrsSrtPacket where
  shared_buffer : Option SrsSharedPtrMessage
  actual_buffer_size : Nat
deriving Repr, DecidableEq

/-- The `SrsSrtPacket` constructor: NULL buffer, size 0. -/
def SrsSrtPacket.new : SrsSrtPacket :=
  { shared_buffer := none, actual_buffer_size := 0 }

/-- Model of `SrsSrtPacket::wrap(int size)`: record `actual_buffer_size_ = size`;
reuse the backing buffer when it exists and is at least `size` bytes,
otherwise allocate a fresh buffer of exactly `size` bytes (the C++ leaves
fresh bytes uninitialized; the model fills them with 0). -/
def SrsSrtPacket.wrap (p : SrsSrtPacket) (size : Nat) : SrsSrtPacket :=
  match p.shared_buffer with
  | some b =>
    if size ≤ b.size then
      { p with actual_buffer_size := size }
    else
      { shared_buffer := some { payload := List.replicate size 0 },
        actual_buffer_size := size }
  | none =>
    { shared_buffer := some { payload := List.replicate size 0 },
      actual_buffer_size := size }

/-- Model of `SrsSrtPacket::wrap(char* data, int size)`: `wrap(size)` then `memcpy`
of `size` bytes into the start of the backing buffer. -/
def SrsSrtPacket.wrap_bytes (p : SrsSrtPacket) (data : List Byte) : SrsSrtPacket :=
  let q := p.wrap data.length
  match q.shared_buffer with
  | some b =>
    { q with shared_buffer := some { payload := data ++ b.payload.drop data.length } }
  | none => q

/-- Model of `SrsSrtPacket::wrap(SrsSharedPtrMessage* msg)`: release the current
backing, adopt a refcount share of `msg`, set the size to the message
size. -/
def SrsSrtPacket.wrap_msg (_p : SrsSrtPacket) (msg : SrsSharedPtrMessage) : SrsSrtPacket :=
  { shared_buffer := some msg.copy2, actual_buffer_size := msg.size }

/-- Model of `SrsSrtPacket::copy`: an independent packet whose backing buffer is a
refcount share of this one (`copy2`), with the same `actual_buffer_size_`. -/
def SrsSrtPacket.copy (p : SrsSrtPacket) : SrsSrtPacket :=
  { shared_buffer := p.shared_buffer.map SrsSharedPtrMessage.copy2,
    actual_buffer_size := p.actual_buffer_size }

/-- Model of `SrsSrtPacket::data`: the start of the backing payload
(`shared_buffer_->payload`; `none` models the NULL dereference). -/
def SrsSrtPacket.data (p : SrsSrtPacket) : Option (List Byte) :=
  p.shared_buffer.map (fun b => b.payload)

/-- Model of `SrsSrtPacket::size`: note the C++ returns `shared_buffer_->size` (the
backing buffer length), not `actual_buffer_size_`. -/
def SrsSrtPacket.size (p : SrsSrtPacket) : Option Nat :=
  p.shared_buffer.map SrsSharedPtrMessage.size

/-- The bytes of the backing buffer, `[]` when it is NULL; used where the
C++ reads `data()` and `size()` together. -/
def SrsSrtPacket.buffer_bytes (p : SrsSrtPacket) : List Byte :=
  match p.shared_buffer with
  | some b => b.payload
  | none => []

/-- Model of `SrsRequest` (external, `srs_protocol_rtmp_stack`): an identity carrier.
The identity is collapsed to `stream_url` and the auth fields to one `auth`
token; `update_auth` refreshes only the auth fields. -/
structure SrsRequest where
  stream_url : String
  auth : Nat
deriving Repr, DecidableEq

/-- Model of `SrsRequest::copy`. -/
def SrsRequest.copy (r : SrsRequest) : SrsRequest := r

/-- Model of `SrsRequest::update_auth(other)`: take the auth fields from `other`,
keep the stream identity. -/
def SrsRequest.update_auth (r other : SrsRequest) : SrsRequest :=
  { r with auth := other.auth }

/-- Model of `SrsSrtConsumer`: the pull-side FIFO with min-fill signalling.  The
back-reference to the source and the condition variable are external to the
per-call behaviour and are not part of the state. -/
structure SrsSrtConsumer where
  queue : List SrsSrtPacket
  should_update_source_id : Bool
  mw_min_msgs : Nat
  mw_waiting : Bool
deriving Repr, DecidableEq

/-- The `SrsSrtConsumer` constructor. -/
def SrsSrtConsumer.new : SrsSrtConsumer :=
  { queue := [], should_update_source_id := false, mw_min_msgs := 0, mw_waiting := false }

/-- Model of `SrsSrtConsumer::update_source_id`. -/
def SrsSrtConsumer.update_source_id (c : SrsSrtConsumer) : SrsSrtConsumer :=
  { c with should_update_source_id := true }

/-- Model of `SrsSrtConsumer::enqueue`: `push_back`, then if a waiter exists and the
queue now exceeds `mw_min_msgs`, signal the condition and clear
`mw_waiting`.  The returned `Bool` is whether the condition was signalled;
the C++ function itself always returns `srs_success`. -/
def SrsSrtConsumer.enqueue (c : SrsSrtConsumer) (packet : SrsSrtPacket) :
    SrsSrtConsumer × Bool :=
  let q := c.queue ++ [packet]
  if c.mw_waiting ∧ c.mw_min_msgs < q.length then
    ({ c with queue := q, mw_waiting := false }, true)
  else
    ({ c with queue := q }, false)

/-- Model of `SrsSrtConsumer::dump_packet`: clear the pending source-id log flag,
then pop the queue head if any (the out parameter is untouched when the
queue is empty, modelled by `none`). -/
def SrsSrtConsumer.dump_packet (c : SrsSrtConsumer) :
    SrsSrtConsumer × Option SrsSrtPacket :=
  let c1 := { c with should_update_source_id := false }
  match c1.queue with
  | [] => (c1, none)
  | p :: rest => ({ c1 with queue := rest }, some p)

/-- Model of `SrsSrtConsumer::wait(nb_msgs, timeout)`: store the threshold; return at
once when the queue already exceeds it, otherwise mark `mw_waiting` and
block (the blocking wait itself is the external condition variable). -/
def SrsSrtConsumer.wait (c : SrsSrtConsumer) (nb_msgs : Nat) : SrsSrtConsumer :=
  let c1 := { c with mw_min_msgs := nb_msgs }
  if nb_msgs < c1.queue.length then c1
  else { c1 with mw_waiting := true }

/-- The error constants of this file that the claims mention
(`srs_kernel_error.hpp` codes, named as in the C++). -/
inductive SrsError where
  /-- Model of `ERROR_STREAM_CASTER_TS_ES`: unsupported stream format. -/
  | stream_caster_ts_es
  /-- Model of `ERROR_STREAM_CASTER_TS_CODEC`: unsupported stream codec. -/
  | stream_caster_ts_codec
  /-- Model of `ERROR_SRT_TO_RTMP_EMPTY_SPS_PPS`: sps or pps empty. -/
  | srt_to_rtmp_empty_sps_pps
  /-- Model of `ERROR_SRT_CONN`: used by `on_h264_frame` for an empty frame. -/
  | srt_conn
deriving Repr, DecidableEq

/-- Model of `SrsSrtFrameBuilder` state: the tracked AVC parameter sets, their change
flag, the tracked AAC sequence header and its change flag, and the request
copied by `initialize`.  (The C++ constructor leaves `audio_sh_change_`
uninitialized; the model starts it at `false`.  The HEVC fields exist only
under the `SRS_H265` build flag and are not modelled.) -/
structure SrsSrtFrameBuilder where
  sps : List Byte
  pps : List Byte
  sps_pps_change : Bool
  audio_sh : List Byte
  audio_sh_change : Bool
  req : Option SrsRequest
deriving Repr, DecidableEq

/-- The `SrsSrtFrameBuilder` constructor. -/
def SrsSrtFrameBuilder.new : SrsSrtFrameBuilder :=
  { sps := [], pps := [], sps_pps_change := false,
    audio_sh := [], audio_sh_change := false, req := none }

/-- A frame dispatched to the bridge (`bridge_->on_frame`).  Video frames
carry the FLV dts (1 kHz); the AVC sequence header additionally carries the
sps/pps it was muxed from (the byte format of the external
`mux_sequence_header` is out of scope), and the NALU-mode frame carries its
composition-time offset, keyframe flag and full FLV payload, which this
file assembles itself. -/
inductive SrsFrame where
  /-- An AVC sequence-header video message (key frame, sequence-header trait). -/
  | video_sh (dts : Nat) (sps pps : List Byte)
  /-- An AVC NALU-mode video message. -/
  | video_nalu (dts : Nat) (cts : Int) (keyframe : Bool) (payload : List Byte)
  /-- An AAC sequence-header audio message. -/
  | audio_sh (pts : Nat) (payload : List Byte)
  /-- A raw AAC audio message. -/
  | audio_raw (pts : Nat) (payload : List Byte)
deriving Repr, DecidableEq

/-- Whether a frame is an AVC NALU-mode video message. -/
def SrsFrame.is_nalu : SrsFrame → Bool
  | .video_nalu _ _ _ _ => true
  | _ => false

/-- Whether a frame is a raw AAC audio message. -/
def SrsFrame.is_audio_raw : SrsFrame → Bool
  | .audio_raw _ _ => true
  | _ => false

/-- The composition-time offset of an AVC NALU-mode frame. -/
def SrsFrame.cts_of : SrsFrame → Option Int
  | .video_nalu _ c _ _ => some c
  | _ => none

/-- The timestamp a frame carries (FLV dts for video, pts for audio). -/
def SrsFrame.ts_of : SrsFrame → Nat
  | .video_sh d _ _ => d
  | .video_nalu d _ _ _ => d
  | .audio_sh p _ => p
  | .audio_raw p _ => p

/-- Model of `SrsBuffer::write_3bytes`: the low three bytes, big endian. -/
def write_3bytes_of (v : Nat) : List Byte :=
  [v / 2 ^ 16 % 256, v / 2 ^ 8 % 256, v % 256]

/-- Model of `SrsBuffer::write_4bytes`: the low four bytes, big endian. -/
def write_4bytes_of (v : Nat) : List Byte :=
  [v / 2 ^ 24 % 256, v / 2 ^ 16 % 256, v / 2 ^ 8 % 256, v % 256]

/-- One NAL unit of the AVC path as the external `SrsRawH264Stream` helpers
(out of scope) classify it: `empty` is a demuxed frame of size 0 (skipped by
the loop), `sps`/`pps` carry the `sps_demux`/`pps_demux` output, and every
other NAL goes to `ipb_frames` with its raw bytes. -/
inductive AvcNal where
  | empty
  | sps (content : List Byte)
  | pps (content : List Byte)
  | other (bytes : List Byte)
deriving Repr, DecidableEq

/-- The NAL classification loop of `SrsSrtFrameBuilder::on_ts_video_avc`:
store each sps/pps, marking `sps_pps_change_` when a non-empty one differs
from the stored one, and accumulate all other NALs into `ipb_frames`. -/
def avc_classify :
    SrsSrtFrameBuilder → List (List Byte) → List AvcNal →
    SrsSrtFrameBuilder × List (List Byte)
  | st, ipb, [] => (st, ipb)
  | st, ipb, AvcNal.empty :: rest => avc_classify st ipb rest
  | st, ipb, AvcNal.sps c :: rest =>
    let st1 := { st with
      sps_pps_change := if c ≠ [] ∧ st.sps ≠ c then true else st.sps_pps_change,
      sps := c }
    avc_classify st1 ipb rest
  | st, ipb, AvcNal.pps c :: rest =>
    let st1 := { st with
      sps_pps_change := if c ≠ [] ∧ st.pps ≠ c then true else st.sps_pps_change,
      pps := c }
    avc_classify st1 ipb rest
  | st, ipb, AvcNal.other b :: rest => avc_classify st (ipb ++ [b]) rest

/-- Model of `SrsSrtFrameBuilder::check_sps_pps_change`: nothing to do when the flag
is clear; fail with `ERROR_SRT_TO_RTMP_EMPTY_SPS_PPS` (dispatching nothing)
when sps or pps is empty; otherwise clear the flag and dispatch one AVC
sequence-header frame at dts `msg->dts / 90` (cast to `uint32_t`). -/
def SrsSrtFrameBuilder.check_sps_pps_change (st : SrsSrtFrameBuilder) (msg_dts : Nat) :
    SrsSrtFrameBuilder × List SrsFrame × Option SrsError :=
  if st.sps_pps_change = false then
    (st, [], none)
  else if st.sps = [] ∨ st.pps = [] then
    (st, [], some SrsError.srt_to_rtmp_empty_sps_pps)
  else
    let dts := msg_dts / 90 % 2 ^ 32
    ({ st with sps_pps_change := false },
     [SrsFrame.video_sh dts st.sps st.pps], none)

/-- Model of `SrsSrtFrameBuilder::on_h264_frame`: fail with `ERROR_SRT_CONN` on an
empty frame list; otherwise build one NALU-mode FLV video message:
dts = `msg->dts / 90`, pts = `msg->pts / 90` (both `uint32_t`),
cts = `pts - dts` (as `int32_t`), keyframe iff some NAL has type
`first_byte & 0x1f == 5` (IDR), payload = 5-byte video tag header
(`0x17`/`0x27`, `0x01`, 3-byte cts) then per NAL a 4-byte big-endian
length and the NAL bytes; dispatch it to the bridge. -/
def SrsSrtFrameBuilder.on_h264_frame (msg_dts msg_pts : Nat)
    (ipb_frames : List (List Byte)) : List SrsFrame × Option SrsError :=
  if ipb_frames = [] then
    ([], some SrsError.srt_conn)
  else
    let dts : Nat := msg_dts / 90 % 2 ^ 32
    let pts : Nat := msg_pts / 90 % 2 ^ 32
    let cts_u : Nat := (pts + 2 ^ 32 - dts) % 2 ^ 32
    let cts : Int := if cts_u < 2 ^ 31 then (cts_u : Int) else (cts_u : Int) - 2 ^ 32
    let keyframe := ipb_frames.any (fun nal => nal.headD 0 % 32 = 5)
    let tag : Byte := if keyframe then 0x17 else 0x27
    let payload :=
      (tag :: 0x01 :: write_3bytes_of (cts_u % 2 ^ 24)) ++
      (ipb_frames.map (fun nal => write_4bytes_of (nal.length % 2 ^ 32) ++ nal)).flatten
    ([SrsFrame.video_nalu dts cts keyframe payload], none)

/-- Model of `SrsSrtFrameBuilder::on_ts_video_avc`: demux and classify the Annex-B
NALs of the PES payload (demux failures of the external helper are not
modelled: `nals` is the successful demux output), then
`check_sps_pps_change`, then `on_h264_frame`; an error from either step
aborts, keeping the frames dispatched before it. -/
def SrsSrtFrameBuilder.on_ts_video_avc (st : SrsSrtFrameBuilder)
    (msg_dts msg_pts : Nat) (nals : List AvcNal) :
    SrsSrtFrameBuilder × List SrsFrame × Option SrsError :=
  let r1 := avc_classify st [] nals
  match r1.1.check_sps_pps_change msg_dts with
  | (st2, frames, some e) => (st2, frames, some e)
  | (st2, frames, none) =>
    let r2 := SrsSrtFrameBuilder.on_h264_frame msg_dts msg_pts r1.2
    (st2, frames ++ r2.1, r2.2)

/-- Model of `SrsAudioSampleRate5512` (external FLV enum value 0). -/
def SrsAudioSampleRate5512 : Nat := 0

/-- Model of `SrsAudioSampleRate11025` (external FLV enum value 1). -/
def SrsAudioSampleRate11025 : Nat := 1

/-- Model of `SrsAudioSampleRate22050` (external FLV enum value 2). -/
def SrsAudioSampleRate22050 : Nat := 2

/-- Model of `SrsAudioSampleRate44100` (external FLV enum value 3). -/
def SrsAudioSampleRate44100 : Nat := 3

/-- The `switch (codec.sound_rate)` of `SrsSrtFrameBuilder::on_ts_audio`:
5512/11025/22050 for the first three enum values, 44100 for
`SrsAudioSampleRate44100` and for every other value (the default case). -/
def aac_sample_rate_of (sound_rate : Nat) : Nat :=
  if sound_rate = SrsAudioSampleRate5512 then 5512
  else if sound_rate = SrsAudioSampleRate11025 then 11025
  else if sound_rate = SrsAudioSampleRate22050 then 22050
  else 44100

/-- The FLV audio tag flag byte written by this file:
`(SrsAudioCodecIdAAC << 4) | (SrsAudioSampleRate44100 << 2) |
(SrsAudioSampleBits16bit << 1) | SrsAudioChannelsStereo` = 0xAF. -/
def srt_aac_flag : Byte := 10 * 2 ^ 4 + 3 * 2 ^ 2 + 1 * 2 + 1

/-- One ADTS frame as demuxed by the external `SrsRawAacStream::adts_demux`
(out of scope): its raw bytes, the `codec.sound_rate` field, and the
AudioSpecificConfig that `mux_sequence_header` produces for the codec
fields of this frame.  Demux failures of the external helper are not modelled. -/
structure AdtsFrame where
  bytes : List Byte
  sound_rate : Nat
  sh : List Byte
deriving Repr, DecidableEq

/-- Model of `SrsSrtFrameBuilder::check_audio_sh_change`: nothing when the flag is
clear; otherwise clear it and dispatch one audio sequence-header message at
the given pts, whose payload is the 2-byte tag header (flag byte, then 0)
followed by the stored AudioSpecificConfig. -/
def SrsSrtFrameBuilder.check_audio_sh_change (st : SrsSrtFrameBuilder) (pts : Nat) :
    SrsSrtFrameBuilder × List SrsFrame :=
  if st.audio_sh_change = false then
    (st, [])
  else
    ({ st with audio_sh_change := false },
     [SrsFrame.audio_sh pts (srt_aac_flag :: 0 :: st.audio_sh)])

/-- Model of `SrsSrtFrameBuilder::on_aac_frame`: one raw AAC audio message whose
payload is the 2-byte tag header (flag byte, then 1) followed by the frame
bytes. -/
def SrsSrtFrameBuilder.on_aac_frame (pts : Nat) (data : List Byte) : SrsFrame :=
  SrsFrame.audio_raw pts (srt_aac_flag :: 1 :: data)

/-- The per-ADTS-frame loop of `SrsSrtFrameBuilder::on_ts_audio`, with the
PES pts (already converted to 1 kHz), the running frame index and the
accumulated duration.  Frames of size 0 are skipped.  For each valid frame:
update the stored audio sequence header (marking `audio_sh_change_` when a
non-empty one differs), synthesize
`frame_pts = pts + frame_idx * 1024 * 1000 / sample_rate`, dispatch a
sequence-header message when the flag is set, then dispatch the raw frame.
The C++ computes `frame_pts` and the duration in `double` and truncates to
integers; the model uses the exact integer floor, which agrees for all
realistic frame counts. -/
def SrsSrtFrameBuilder.on_ts_audio_go :
    SrsSrtFrameBuilder → Nat → Nat → Nat → List AdtsFrame →
    SrsSrtFrameBuilder × List SrsFrame × Nat
  | st, _, _, dur, [] => (st, [], dur)
  | st, pts, idx, dur, f :: rest =>
    if f.bytes.length = 0 then
      SrsSrtFrameBuilder.on_ts_audio_go st pts idx dur rest
    else
      let st1 := if f.sh ≠ [] ∧ f.sh ≠ st.audio_sh
                 then { st with audio_sh := f.sh, audio_sh_change := true }
                 else st
      let sample_rate := aac_sample_rate_of f.sound_rate
      let frame_pts := pts + idx * 1024 * 1000 / sample_rate
      let r1 := st1.check_audio_sh_change frame_pts
      let r2 := SrsSrtFrameBuilder.on_ts_audio_go r1.1 pts (idx + 1)
                  (dur + 1024 * 1000 / sample_rate) rest
      (r2.1, r1.2 ++ SrsSrtFrameBuilder.on_aac_frame frame_pts f.bytes :: r2.2.1, r2.2.2)

/-- Model of `SrsSrtFrameBuilder::on_ts_audio`: convert the PES pts to 1 kHz
(`msg->pts / 90`, cast to `uint32_t`) and run the ADTS frame loop; the
accumulated duration only feeds a rate-limited warning log and the function
returns success. -/
def SrsSrtFrameBuilder.on_ts_audio (st : SrsSrtFrameBuilder) (msg_pts : Nat)
    (frames : List AdtsFrame) : SrsSrtFrameBuilder × List SrsFrame × Option SrsError :=
  let pts : Nat := msg_pts / 90 % 2 ^ 32
  let r := SrsSrtFrameBuilder.on_ts_audio_go st pts 0 0 frames
  (r.1, r.2.1, none)

/-- Model of `SrsTsPESStreamIdPrivateStream1` (external `srs_kernel_ts.hpp`). -/
def SrsTsPESStreamIdPrivateStream1 : Nat := 0xbd

/-- Model of `SrsTsPESStreamIdAudioCommon` (external `srs_kernel_ts.hpp`). -/
def SrsTsPESStreamIdAudioCommon : Nat := 0xc0

/-- Model of `SrsTsPidApply` values this file compares against (external). -/
inductive SrsTsPidApply where
  | audio
  | video
  | reserved
deriving Repr, DecidableEq

/-- Model of `SrsTsStream` codec values this file compares against (external); any
other codec is `other`. -/
inductive SrsTsStream where
  | videoH264
  | videoHEVC
  | audioAAC
  | other (code : Nat)
deriving Repr, DecidableEq

/-- Modelled from the spec: `SrsTsMessage`, the callback message of the
abstract TS PES parser (`srs_kernel_ts`, out of scope), restricted to the
fields this file reads.  The PES payload is carried pre-demuxed through the
two external demuxers that consume it: `nals` is its view through the AVC
Annex-B demuxer, `adts` its view through the ADTS demuxer. -/
structure SrsTsMessage where
  sid : Nat
  channel_apply : SrsTsPidApply
  channel_stream : SrsTsStream
  dts : Nat
  pts : Nat
  nals : List AvcNal
  adts : List AdtsFrame
deriving Repr, DecidableEq

/-- Modelled from the spec: `SrsTsMessage::stream_number` of the abstract TS
parser — audio stream ids (`(sid >> 5) & 0x07 == 0b110`) carry
`sid & 0x1f`, video stream ids (`(sid >> 4) & 0x0f == 0b1110`) carry
`sid & 0x0f`, anything else is -1. -/
def SrsTsMessage.stream_number (m : SrsTsMessage) : Int :=
  if m.sid / 32 % 8 = 6 then (m.sid % 32 : Int)
  else if m.sid / 16 % 16 = 14 then (m.sid % 16 : Int)
  else -1

/-- The private-stream-1 remap opening `SrsSrtFrameBuilder::on_ts_message`:
when the channel applies to audio and the PES stream id is
"private stream 1", rewrite it to "audio common". -/
def SrsTsMessage.remap_private (m : SrsTsMessage) : SrsTsMessage :=
  if m.channel_apply = SrsTsPidApply.audio ∧ m.sid = SrsTsPESStreamIdPrivateStream1
  then { m with sid := SrsTsPESStreamIdAudioCommon }
  else m

/-- Model of `SrsSrtFrameBuilder::on_ts_message`: after the private-stream-1 remap,
fail with `ERROR_STREAM_CASTER_TS_ES` when the stream number is non-zero,
then with `ERROR_STREAM_CASTER_TS_CODEC` when the codec is none of
H.264/HEVC/AAC; otherwise dispatch to the codec handler over the payload.
The HEVC handler is compiled only under the `SRS_H265` build flag and is
not modelled: an HEVC message passes the checks and dispatches nothing. -/
def SrsSrtFrameBuilder.on_ts_message (st : SrsSrtFrameBuilder) (msg : SrsTsMessage) :
    SrsSrtFrameBuilder × List SrsFrame × Option SrsError :=
  let m := msg.remap_private
  if m.stream_number ≠ 0 then
    (st, [], some SrsError.stream_caster_ts_es)
  else if m.channel_stream ≠ SrsTsStream.videoH264 ∧
          m.channel_stream ≠ SrsTsStream.videoHEVC ∧
          m.channel_stream ≠ SrsTsStream.audioAAC then
    (st, [], some SrsError.stream_caster_ts_codec)
  else if m.channel_stream = SrsTsStream.videoH264 then
    st.on_ts_video_avc m.dts m.pts m.nals
  else if m.channel_stream = SrsTsStream.audioAAC then
    st.on_ts_audio m.pts m.adts
  else
    (st, [], none)

/-- Model of `SRS_TS_PACKET_SIZE` (external `srs_kernel_ts.hpp`): the fixed 188-byte
MPEG-TS cell size. -/
def SRS_TS_PACKET_SIZE : Nat := 188

/-- The 188-byte cells of a buffer: `nb_buf / SRS_TS_PACKET_SIZE` slices
starting at offsets `i * SRS_TS_PACKET_SIZE`; trailing remainder bytes
belong to no cell. -/
def ts_cells (buf : List Byte) : List (List Byte) :=
  (List.range (buf.length / SRS_TS_PACKET_SIZE)).map
    (fun i => (buf.drop (i * SRS_TS_PACKET_SIZE)).take SRS_TS_PACKET_SIZE)

/-- The cell loop of `SrsSrtFrameBuilder::on_packet`: iterate
`i = 0, …, nb_packet - 1` over the 188-byte slices of `buf`, feeding each to
`decode` (the external `SrsTsContext::decode` with the frame builder as the
PES callback sink, abstracted as an oracle over its own state `σ`); when a
cell fails to decode, log a warning with its index, reset the error and
continue with the next cell.  Returns the final decoder state, the cells
fed in order, and the indices of the failed (warned) cells. -/
def SrsSrtFrameBuilder.on_packet_go {σ : Type} (decode : σ → List Byte → σ × Bool)
    (buf : List Byte) : σ → Nat → Nat → σ × List (List Byte) × List Nat
  | c, _, 0 => (c, [], [])
  | c, i, n + 1 =>
    let cell := (buf.drop (i * SRS_TS_PACKET_SIZE)).take SRS_TS_PACKET_SIZE
    let r1 := decode c cell
    let r2 := SrsSrtFrameBuilder.on_packet_go decode buf r1.1 (i + 1) n
    (r2.1, cell :: r2.2.1, if r1.2 then r2.2.2 else i :: r2.2.2)

/-- Model of `SrsSrtFrameBuilder::on_packet`: split the packet bytes
(`pkt->data()`, `pkt->size()`) into `nb_buf / SRS_TS_PACKET_SIZE` cells and
run the swallow-and-continue decode loop; the result of the function itself (the
last component) is `none`, i.e. success — a cell decode failure never
propagates to the caller. -/
def SrsSrtFrameBuilder.on_packet {σ : Type} (decode : σ → List Byte → σ × Bool)
    (ctx : σ) (pkt : SrsSrtPacket) : σ × List (List Byte) × List Nat × Option SrsError :=
  let buf := pkt.buffer_bytes
  let nb_packet := buf.length / SRS_TS_PACKET_SIZE
  let r := SrsSrtFrameBuilder.on_packet_go decode buf ctx 0 nb_packet
  (r.1, r.2.1, r.2.2, none)

/-- Model of `SrsContextId` (external): an opaque id with an emptiness test; modelled
as a string, empty = `""`. -/
abbrev SrsContextId := String

/-- The externally observable actions of a source-lifecycle call, in call
order: the bridge/frame-builder notifications, the statistics record, the
registry elimination request, and the per-packet deliveries. -/
inductive SrsSrtEvent where
  /-- Model of `frame_builder_->on_publish()` (always succeeds). -/
  | frame_builder_publish
  /-- Model of `bridge_->on_publish()` (external; modelled as succeeding). -/
  | bridge_publish
  /-- Model of `SrsStatistic::on_stream_publish`. -/
  | stat_publish
  /-- Model of `frame_builder_->on_unpublish()`. -/
  | frame_builder_unpublish
  /-- Model of `bridge_->on_unpublish()`. -/
  | bridge_unpublish
  /-- Model of `_srs_srt_sources->eliminate(req)`. -/
  | eliminated
  /-- Model of `consumers[i]->enqueue(packet->copy())` during `on_packet`. -/
  | enqueued (index : Nat) (packet : SrsSrtPacket)
  /-- Model of `frame_builder_->on_packet(packet)` during `on_packet`. -/
  | frame_builder_packet (packet : SrsSrtPacket)
deriving Repr, DecidableEq

/-- Model of `SrsSrtSource`: the per-stream hub.  `has_bridge` models the `bridge_`
pointer being non-NULL (the bridge itself is an external sink);
`frame_builder` the paired `frame_builder_`. -/
structure SrsSrtSource where
  req : Option SrsRequest
  can_publish_ : Bool
  source_id : SrsContextId
  pre_source_id : SrsContextId
  consumers : List SrsSrtConsumer
  has_bridge : Bool
  frame_builder : Option SrsSrtFrameBuilder
deriving Repr, DecidableEq

/-- The `SrsSrtSource` constructor: NULL request, `can_publish_ = true`, no
bridge, no frame builder. -/
def SrsSrtSource.new : SrsSrtSource :=
  { req := none, can_publish_ := true, source_id := "", pre_source_id := "",
    consumers := [], has_bridge := false, frame_builder := none }

/-- Model of `SrsSrtSource::initialize(r)`: copy the request. -/
def SrsSrtSource.init_req (s : SrsSrtSource) (r : SrsRequest) : SrsSrtSource :=
  { s with req := some r.copy }

/-- Model of `SrsSrtSource::update_auth(r)`: `req->update_auth(r)`. -/
def SrsSrtSource.update_auth (s : SrsSrtSource) (r : SrsRequest) : SrsSrtSource :=
  { s with req := s.req.map (fun q => q.update_auth r) }

/-- Model of `SrsSrtSource::set_bridge(bridge)`: replace the bridge and pair a fresh
frame builder. -/
def SrsSrtSource.set_bridge (s : SrsSrtSource) : SrsSrtSource :=
  { s with has_bridge := true, frame_builder := some SrsSrtFrameBuilder.new }

/-- Model of `SrsSrtSource::can_publish`. -/
def SrsSrtSource.can_publish (s : SrsSrtSource) : Bool :=
  s.can_publish_

/-- Model of `SrsSrtSource::on_source_id_changed(id)`: nothing when the id is
unchanged; otherwise set `_pre_source_id` on its first assignment, update
`_source_id` and flag every consumer to log the change. -/
def SrsSrtSource.on_source_id_changed (s : SrsSrtSource) (id : SrsContextId) :
    SrsSrtSource :=
  if s.source_id = id then s
  else
    { s with
      pre_source_id := if s.pre_source_id = "" then id else s.pre_source_id,
      source_id := id,
      consumers := s.consumers.map SrsSrtConsumer.update_source_id }

/-- Model of `SrsSrtSource::on_publish`: set `can_publish_ = false` (without checking
its previous value), run `on_source_id_changed` with the ambient context
id, and when a bridge is attached initialize the frame builder with the
request and notify frame builder and bridge; finally record the publish in
the statistics.  The bridge is external and modelled as succeeding, so the
returned error is `none`. -/
def SrsSrtSource.on_publish (s : SrsSrtSource) (ambient : SrsContextId) :
    SrsSrtSource × List SrsSrtEvent × Option SrsError :=
  let s1 := { s with can_publish_ := false }
  let s2 := s1.on_source_id_changed ambient
  if s2.has_bridge then
    let s3 := { s2 with
      frame_builder := s2.frame_builder.map (fun fb => { fb with req := s2.req }) }
    (s3, [SrsSrtEvent.frame_builder_publish, SrsSrtEvent.bridge_publish,
          SrsSrtEvent.stat_publish], none)
  else
    (s2, [SrsSrtEvent.stat_publish], none)

/-- Model of `SrsSrtSource::on_unpublish`: ignore when already unpublished
(`can_publish_` true); otherwise set `can_publish_ = true`, tear down the
frame builder and bridge when attached, and ask the registry to eliminate
this source when no consumers remain. -/
def SrsSrtSource.on_unpublish (s : SrsSrtSource) : SrsSrtSource × List SrsSrtEvent :=
  if s.can_publish_ then
    (s, [])
  else
    let s1 := { s with can_publish_ := true }
    let r :=
      if s1.has_bridge then
        ({ s1 with frame_builder := none, has_bridge := false },
         [SrsSrtEvent.frame_builder_unpublish, SrsSrtEvent.bridge_unpublish])
      else (s1, [])
    if r.1.consumers.isEmpty then (r.1, r.2 ++ [SrsSrtEvent.eliminated])
    else (r.1, r.2)

/-- Model of `SrsSrtSource::on_packet`: enqueue `packet->copy()` into every consumer
in list order (`SrsSrtConsumer::enqueue` always succeeds, so the loop never
aborts), then hand the original packet to `frame_builder_->on_packet` when
a frame builder is attached.  `decode`/`ctx` abstract the external TS
decoding that the frame builder performs (see
`SrsSrtFrameBuilder.on_packet`), whose result is always success. -/
def SrsSrtSource.on_packet {σ : Type} (decode : σ → List Byte → σ × Bool)
    (ctx : σ) (s : SrsSrtSource) (packet : SrsSrtPacket) :
    SrsSrtSource × σ × List SrsSrtEvent × Option SrsError :=
  let consumers1 := s.consumers.map (fun c => (c.enqueue packet.copy).1)
  let events := (List.range s.consumers.length).map
    (fun i => SrsSrtEvent.enqueued i packet.copy)
  match s.frame_builder with
  | some _ =>
    let r := SrsSrtFrameBuilder.on_packet decode ctx packet
    ({ s with consumers := consumers1 }, r.1,
     events ++ [SrsSrtEvent.frame_builder_packet packet], r.2.2.2)
  | none =>
    ({ s with consumers := consumers1 }, ctx, events, none)

/-- Iterated `SrsSrtSource::on_packet` over a list of published packets. -/
def SrsSrtSource.on_packets {σ : Type} (decode : σ → List Byte → σ × Bool) :
    σ → SrsSrtSource → List SrsSrtPacket → SrsSrtSource × σ
  | ctx, s, [] => (s, ctx)
  | ctx, s, p :: rest =>
    let r := SrsSrtSource.on_packet decode ctx s p
    SrsSrtSource.on_packets decode r.2.1 r.1 rest

/-- Association-list find, modelling `std::map::find`. -/
def assoc_find {α β : Type} [DecidableEq α] : List (α × β) → α → Option β
  | [], _ => none
  | (k, v) :: rest, a => if k = a then some v else assoc_find rest a

/-- Association-list insert-or-assign, modelling `map[key] = value`. -/
def assoc_set {α β : Type} [DecidableEq α] : List (α × β) → α → β → List (α × β)
  | [], a, b => [(a, b)]
  | (k, v) :: rest, a, b =>
    if k = a then (a, b) :: rest else (k, v) :: assoc_set rest a b

/-- Association-list erase of the first matching key, modelling
`map.erase(it)`. -/
def assoc_erase {α β : Type} [DecidableEq α] : List (α × β) → α → List (α × β)
  | [], _ => []
  | (k, v) :: rest, a =>
    if k = a then rest else (k, v) :: assoc_erase rest a

/-- Model of `SrsSrtSourceManager`: the process-wide registry.  C++ shared-pointer
identity is modelled by a heap: `pool` maps stream urls to source ids and
`store` maps ids to source states; `next_id` is the allocator.  The lock
only serializes coroutine switches and has no observable effect here. -/
structure SrsSrtSourceManager where
  pool : List (String × Nat)
  store : List (Nat × SrsSrtSource)
  next_id : Nat
deriving Repr, DecidableEq

/-- The empty registry. -/
def SrsSrtSourceManager.new : SrsSrtSourceManager :=
  { pool := [], store := [], next_id := 0 }

/-- Model of `SrsSrtSourceManager::fetch_or_create(r, pps)`: look up
`r->get_stream_url()` in the pool; when found, refresh the auth of the
pooled source from `r` and return the shared handle; when absent, construct a
source, `initialize(r)` it (which cannot fail in the model: it only copies
the request), insert it under the url and return it.  The returned `Nat`
is the shared handle (heap id). -/
def SrsSrtSourceManager.fetch_or_create (m : SrsSrtSourceManager) (r : SrsRequest) :
    SrsSrtSourceManager × Nat :=
  match assoc_find m.pool r.stream_url with
  | some sid =>
    let store1 :=
      match assoc_find m.store sid with
      | some src => assoc_set m.store sid (src.update_auth r)
      | none => m.store
    ({ m with store := store1 }, sid)
  | none =>
    let src := SrsSrtSource.new.init_req r
    ({ pool := assoc_set m.pool r.stream_url m.next_id,
       store := assoc_set m.store m.next_id src,
       next_id := m.next_id + 1 },
     m.next_id)

/-- Model of `SrsSrtSourceManager::eliminate(r)`: drop the pool entry for the
stream url of the request if present; the heap entry lives until the last shared
owner releases it (not modelled further). -/
def SrsSrtSourceManager.eliminate (m : SrsSrtSourceManager) (r : SrsRequest) :
    SrsSrtSourceManager :=
  { m with pool := assoc_erase m.pool r.stream_url }

/-- Well-formedness of the registry heap model: every pooled id is backed by
a stored, initialized source, and every stored id was allocated before
`next_id` (so `next_id` is fresh). -/
def SrsSrtSourceManager.wf (m : SrsSrtSourceManager) : Prop :=
  (∀ url sid, assoc_find m.pool url = some sid →
    ∃ src, assoc_find m.store sid = some src ∧ src.req.isSome = true) ∧
  (∀ sid src, assoc_find m.store sid = some src → sid < m.next_id)

/-! Helper lemmas -/

theorem assoc_find_set_self {α β : Type} [DecidableEq α]
    (l : List (α × β)) (a : α) (b : β) :
    assoc_find (assoc_set l a b) a = some b := by
  induction l with
  | nil => simp [assoc_set, assoc_find]
  | cons kv rest ih =>
    obtain ⟨k, v⟩ := kv
    by_cases h : k = a
    · simp [assoc_set, assoc_find, h]
    · simp [assoc_set, assoc_find, h, ih]

theorem srs_enqueue_queue (c : SrsSrtConsumer) (p : SrsSrtPacket) :
    ((c.enqueue p).1).queue = c.queue ++ [p] := by
  unfold SrsSrtConsumer.enqueue
  dsimp only
  split <;> rfl

theorem srs_on_source_id_changed_gate (s : SrsSrtSource) (id : SrsContextId) :
    (s.on_source_id_changed id).can_publish_ = s.can_publish_ := by
  unfold SrsSrtSource.on_source_id_changed
  split <;> rfl

theorem srs_remap_channel_stream (m : SrsTsMessage) :
    m.remap_private.channel_stream = m.channel_stream := by
  unfold SrsTsMessage.remap_private
  split <;> rfl

/-! Claim C10 -/

/-- C10: the claim says `size()` returns the logical size `n` of the most
recent `wrap(n)` even when a larger backing buffer is reused.  Evaluating
the code at the failing input: after `wrap(100)` then `wrap(50)` on the
same packet, `actual_buffer_size_` is 50 but `size()` returns the backing
capacity 100, not 50 (`data()` does point at the start of the region). -/
theorem srs_srt_packet_size_returns_capacity :
    ((SrsSrtPacket.new.wrap 100).wrap 50).actual_buffer_size = 50 ∧
    ((SrsSrtPacket.new.wrap 100).wrap 50).size = some 100 ∧
    ((SrsSrtPacket.new.wrap 100).wrap 50).size ≠ some 50 ∧
    ((SrsSrtPacket.new.wrap 100).wrap 50).data = some (List.replicate 100 0) := by
  refine ⟨rfl, ?_, ?_, rfl⟩ <;> decide

/-! Claim C3 -/

/-- C3: `can_publish` is true at construction, false after any `on_publish`,
true after any `on_unpublish`; both operations leave the gate in the target
state when it is already there, and `on_unpublish` on an already-unpublished
source is a complete no-op (state unchanged, no external action). -/
theorem srs_srt_source_publish_gate :
    (SrsSrtSource.new.can_publish = true) ∧
    (∀ (s : SrsSrtSource) (a : SrsContextId), (s.on_publish a).1.can_publish = false) ∧
    (∀ s : SrsSrtSource, s.on_unpublish.1.can_publish = true) ∧
    (∀ s : SrsSrtSource, s.can_publish = true → s.on_unpublish = (s, [])) := by
  refine ⟨rfl, ?_, ?_, ?_⟩
  · intro s a
    unfold SrsSrtSource.on_publish SrsSrtSource.can_publish
    have h := srs_on_source_id_changed_gate { s with can_publish_ := false } a
    dsimp only
    split <;> simpa using h
  · intro s
    unfold SrsSrtSource.on_unpublish SrsSrtSource.can_publish
    dsimp only
    split
    · simpa using by assumption
    · split <;> split <;> rfl
  · intro s h
    unfold SrsSrtSource.can_publish at h
    unfold SrsSrtSource.on_unpublish
    simp [h]

/-- C3 witness: the gate facts at the freshly constructed source. -/
theorem srs_srt_source_publish_gate_witness :
    (SrsSrtSource.new.can_publish = true) ∧
    ((SrsSrtSource.new.on_publish "pub1").1.can_publish = false) ∧
    (SrsSrtSource.new.on_unpublish.1.can_publish = true) ∧
    (SrsSrtSource.new.on_unpublish = (SrsSrtSource.new, [])) :=
  ⟨srs_srt_source_publish_gate.1,
   srs_srt_source_publish_gate.2.1 SrsSrtSource.new "pub1",
   srs_srt_source_publish_gate.2.2.1 SrsSrtSource.new,
   srs_srt_source_publish_gate.2.2.2 SrsSrtSource.new rfl⟩

/-! Claim C9 -/

/-- C9 (counterexample): the claim says a second `on_publish` while
`can_publish = false` asserts or returns a precondition error.  On the
code, publishing a fresh source and then calling `on_publish` again
returns success (`none`) and still records the publish in the statistics:
the second publish is honored silently. -/
theorem srs_srt_on_publish_counterexample :
    ((SrsSrtSource.new.on_publish "pub1").1.can_publish = false) ∧
    (((SrsSrtSource.new.on_publish "pub1").1.on_publish "pub1").2.2 = none) ∧
    (SrsSrtEvent.stat_publish ∈
      ((SrsSrtSource.new.on_publish "pub1").1.on_publish "pub1").2.1) := by
  refine ⟨rfl, rfl, ?_⟩
  decide

/-- C9 (amended): `on_publish` performs no precondition check on the gate:
called while `can_publish = false` it performs the publish again — it
returns success, records the publish in the statistics, and leaves the gate
false.  Rejecting a second publisher is the responsibility of the caller via
`can_publish()`. -/
theorem srs_srt_on_publish_no_gate_check :
    ∀ (s : SrsSrtSource) (ambient : SrsContextId),
      s.can_publish = false →
      (s.on_publish ambient).2.2 = none ∧
      (s.on_publish ambient).1.can_publish = false ∧
      SrsSrtEvent.stat_publish ∈ (s.on_publish ambient).2.1 := by
  intro s a _
  have hgate : (s.on_publish a).1.can_publish = false := by
    unfold SrsSrtSource.on_publish SrsSrtSource.can_publish
    have h := srs_on_source_id_changed_gate { s with can_publish_ := false } a
    dsimp only
    split <;> simpa using h
  refine ⟨?_, hgate, ?_⟩ <;>
    · unfold SrsSrtSource.on_publish
      dsimp only
      split <;> simp

/-- C9 (amended) witness: at the already-published fresh source. -/
theorem srs_srt_on_publish_no_gate_check_witness :
    ((SrsSrtSource.new.on_publish "pub1").1.on_publish "pub1").2.2 = none ∧
    (((SrsSrtSource.new.on_publish "pub1").1.on_publish "pub1").1.can_publish = false) ∧
    SrsSrtEvent.stat_publish ∈
      ((SrsSrtSource.new.on_publish "pub1").1.on_publish "pub1").2.1 :=
  srs_srt_on_publish_no_gate_check (SrsSrtSource.new.on_publish "pub1").1 "pub1" rfl

/-! Claim C4 -/

/-- C4 (counterexample): the claim says the emitted message has
cts = (P − D) / 90.  At D = 89, P = 91 the code emits cts = 1
(pts/90 − dts/90 = 1 − 0), while (P − D) / 90 = 2 / 90 = 0. -/
theorem srs_srt_h264_cts_counterexample :
    SrsSrtFrameBuilder.on_h264_frame 89 91 [[0x65]] =
      ([SrsFrame.video_nalu 0 1 true [0x17, 0x01, 0, 0, 1, 0, 0, 0, 1, 0x65]], none) ∧
    ((91 - 89 : Int) / 90 = 0) ∧
    (1 : Int) ≠ (91 - 89 : Int) / 90 := by
  refine ⟨?_, by decide, by decide⟩
  decide

/-- C4 (amended): for a TS video message with 90 kHz dts = D and pts = P
producing an AVC NALU-mode FLV message (nonempty NAL list, timestamps in
the unwrapped range), the emitted message has FLV dts = D / 90 and
composition time offset cts = P / 90 − D / 90 — each timestamp is divided
by 90 separately, which differs from (P − D) / 90 when the remainders
cross a 90-boundary. -/
theorem srs_srt_on_h264_frame_timebase :
    ∀ (D P : Nat) (nals : List (List Byte)),
      nals ≠ [] → D / 90 ≤ P / 90 → P / 90 < 2 ^ 32 → P / 90 - D / 90 < 2 ^ 31 →
      (SrsSrtFrameBuilder.on_h264_frame D P nals).2 = none ∧
      (SrsSrtFrameBuilder.on_h264_frame D P nals).1.length = 1 ∧
      ((SrsSrtFrameBuilder.on_h264_frame D P nals).1.headD
        (SrsFrame.video_sh 0 [] [])).is_nalu = true ∧
      ((SrsSrtFrameBuilder.on_h264_frame D P nals).1.headD
        (SrsFrame.video_sh 0 [] [])).ts_of = D / 90 ∧
      ((SrsSrtFrameBuilder.on_h264_frame D P nals).1.headD
        (SrsFrame.video_sh 0 [] [])).cts_of = some ((P / 90 : Int) - (D / 90 : Int)) := by
  intro D P nals hne hle hlt hsmall
  have hd : D / 90 < 2 ^ 32 := lt_of_le_of_lt hle hlt
  have h1 : D / 90 % 2 ^ 32 = D / 90 := Nat.mod_eq_of_lt hd
  have h2 : P / 90 % 2 ^ 32 = P / 90 := Nat.mod_eq_of_lt hlt
  have h3 : (P / 90 % 2 ^ 32 + 2 ^ 32 - D / 90 % 2 ^ 32) % 2 ^ 32 = P / 90 - D / 90 := by
    rw [h1, h2]
    omega
  have h4 : P / 90 - D / 90 < 2 ^ 31 := hsmall
  unfold SrsSrtFrameBuilder.on_h264_frame
  rw [if_neg hne]
  dsimp only
  rw [h3, if_pos h4, h1]
  refine ⟨rfl, rfl, rfl, rfl, ?_⟩
  simp only [SrsFrame.cts_of, List.headD_cons, Option.some.injEq]
  omega

/-- C4 (amended) witness: D = 90, P = 270 with one non-IDR NAL. -/
theorem srs_srt_on_h264_frame_timebase_witness :
    (SrsSrtFrameBuilder.on_h264_frame 90 270 [[0x41]]).2 = none ∧
    (SrsSrtFrameBuilder.on_h264_frame 90 270 [[0x41]]).1.length = 1 ∧
    ((SrsSrtFrameBuilder.on_h264_frame 90 270 [[0x41]]).1.headD
      (SrsFrame.video_sh 0 [] [])).is_nalu = true ∧
    ((SrsSrtFrameBuilder.on_h264_frame 90 270 [[0x41]]).1.headD
      (SrsFrame.video_sh 0 [] [])).ts_of = 90 / 90 ∧
    ((SrsSrtFrameBuilder.on_h264_frame 90 270 [[0x41]]).1.headD
      (SrsFrame.video_sh 0 [] [])).cts_of = some ((270 / 90 : Int) - (90 / 90 : Int)) :=
  srs_srt_on_h264_frame_timebase 90 270 [[0x41]]
    (by decide) (by decide) (by decide) (by decide)

/-! Claim C7 -/

/-- C7: in `on_ts_message` (after the private-stream-1 remap), a non-zero
stream number fails with `ERROR_STREAM_CASTER_TS_ES` before any codec
handler runs, and a codec outside {H.264, HEVC, AAC} fails with
`ERROR_STREAM_CASTER_TS_CODEC`; in both cases the state is unchanged and
nothing is dispatched to the bridge. -/
theorem srs_srt_on_ts_message_rejects :
    ∀ (st : SrsSrtFrameBuilder) (msg : SrsTsMessage),
      (msg.remap_private.stream_number ≠ 0 →
        st.on_ts_message msg = (st, [], some SrsError.stream_caster_ts_es)) ∧
      (msg.remap_private.stream_number = 0 →
        msg.channel_stream ≠ SrsTsStream.videoH264 →
        msg.channel_stream ≠ SrsTsStream.videoHEVC →
        msg.channel_stream ≠ SrsTsStream.audioAAC →
        st.on_ts_message msg = (st, [], some SrsError.stream_caster_ts_codec)) := by
  intro st msg
  constructor
  · intro h
    unfold SrsSrtFrameBuilder.on_ts_message
    dsimp only
    rw [if_pos h]
  · intro h0 h1 h2 h3
    have hcs := srs_remap_channel_stream msg
    unfold SrsSrtFrameBuilder.on_ts_message
    dsimp only
    rw [if_neg (by simp [h0]), if_pos ⟨by rw [hcs]; exact h1, by rw [hcs]; exact h2,
      by rw [hcs]; exact h3⟩]

/-- C7 witness: an audio-range PES id with non-zero stream number
(sid = 0xc5) is rejected as unsupported stream format, and a supported-id
message with an MP3 codec (code 4) is rejected as unsupported codec. -/
theorem srs_srt_on_ts_message_rejects_witness :
    SrsSrtFrameBuilder.new.on_ts_message
      { sid := 0xc5, channel_apply := SrsTsPidApply.audio,
        channel_stream := SrsTsStream.audioAAC, dts := 0, pts := 0,
        nals := [], adts := [] } =
      (SrsSrtFrameBuilder.new, [], some SrsError.stream_caster_ts_es) ∧
    SrsSrtFrameBuilder.new.on_ts_message
      { sid := 0xc0, channel_apply := SrsTsPidApply.audio,
        channel_stream := SrsTsStream.other 4, dts := 0, pts := 0,
        nals := [], adts := [] } =
      (SrsSrtFrameBuilder.new, [], some SrsError.stream_caster_ts_codec) :=
  ⟨(srs_srt_on_ts_message_rejects SrsSrtFrameBuilder.new
      { sid := 0xc5, channel_apply := SrsTsPidApply.audio,
        channel_stream := SrsTsStream.audioAAC, dts := 0, pts := 0,
        nals := [], adts := [] }).1 (by decide),
   (srs_srt_on_ts_message_rejects SrsSrtFrameBuilder.new
      { sid := 0xc0, channel_apply := SrsTsPidApply.audio,
        channel_stream := SrsTsStream.other 4, dts := 0, pts := 0,
        nals := [], adts := [] }).2 (by decide) (by decide) (by decide) (by decide)⟩

/-! Claim C5 -/

/-- C5: on the AVC path with `sps_pps_change_` set: if the stored SPS or PPS
is empty the call fails with `ERROR_SRT_TO_RTMP_EMPTY_SPS_PPS` and
dispatches nothing (state unchanged, flag still set); otherwise exactly one
AVC sequence-header frame is dispatched before the NALU frame of the same
message and the flag is cleared, and a later message carrying byte-identical
SPS and PPS does not set the flag again and dispatches only its NALU frame,
with no sequence header. -/
theorem srs_srt_avc_sequence_header_emission :
    ∀ (st : SrsSrtFrameBuilder) (D1 P1 D2 P2 : Nat) (b1 b2 : List Byte),
      st.sps_pps_change = true →
      ((st.sps = [] ∨ st.pps = []) →
        st.on_ts_video_avc D1 P1 [AvcNal.other b1] =
          (st, [], some SrsError.srt_to_rtmp_empty_sps_pps)) ∧
      (st.sps ≠ [] → st.pps ≠ [] →
        (∃ nf,
          st.on_ts_video_avc D1 P1 [AvcNal.other b1] =
            ({ st with sps_pps_change := false },
             [SrsFrame.video_sh (D1 / 90 % 2 ^ 32) st.sps st.pps, nf], none) ∧
          nf.is_nalu = true) ∧
        (∃ nf2,
          ({ st with sps_pps_change := false } : SrsSrtFrameBuilder).on_ts_video_avc
              D2 P2 [AvcNal.sps st.sps, AvcNal.pps st.pps, AvcNal.other b2] =
            ({ st with sps_pps_change := false }, [nf2], none) ∧
          nf2.is_nalu = true)) := by
  intro st D1 P1 D2 P2 b1 b2 hflag
  have hcl1 : avc_classify st [] [AvcNal.other b1] = (st, [b1]) := by
    simp [avc_classify]
  constructor
  · intro hemp
    unfold SrsSrtFrameBuilder.on_ts_video_avc
    dsimp only
    rw [hcl1]
    unfold SrsSrtFrameBuilder.check_sps_pps_change
    rw [if_neg (by simp [hflag]), if_pos hemp]
  · intro hsps hpps
    constructor
    · unfold SrsSrtFrameBuilder.on_ts_video_avc
      dsimp only
      rw [hcl1]
      unfold SrsSrtFrameBuilder.check_sps_pps_change
      rw [if_neg (by simp [hflag]), if_neg (by simp [hsps, hpps])]
      dsimp only
      unfold SrsSrtFrameBuilder.on_h264_frame
      rw [if_neg (by simp)]
      exact ⟨_, rfl, rfl⟩
    · have hcl2 : avc_classify { st with sps_pps_change := false } []
          [AvcNal.sps st.sps, AvcNal.pps st.pps, AvcNal.other b2] =
          ({ st with sps_pps_change := false }, [b2]) := by
        simp [avc_classify]
      unfold SrsSrtFrameBuilder.on_ts_video_avc
      dsimp only
      rw [hcl2]
      unfold SrsSrtFrameBuilder.check_sps_pps_change
      rw [if_pos rfl]
      dsimp only
      unfold SrsSrtFrameBuilder.on_h264_frame
      rw [if_neg (by simp)]
      exact ⟨_, rfl, rfl⟩

/-- C5 witness: the empty branch at a state with empty PPS, and the
emission plus no-re-emission branches at a state holding sps = [1],
pps = [2]. -/
theorem srs_srt_avc_sequence_header_emission_witness :
    (SrsSrtFrameBuilder.on_ts_video_avc
        { sps := [1], pps := [], sps_pps_change := true, audio_sh := [],
          audio_sh_change := false, req := none } 0 0 [AvcNal.other [9]] =
      ({ sps := [1], pps := [], sps_pps_change := true, audio_sh := [],
         audio_sh_change := false, req := none }, [],
       some SrsError.srt_to_rtmp_empty_sps_pps)) ∧
    (∃ nf,
      SrsSrtFrameBuilder.on_ts_video_avc
          { sps := [1], pps := [2], sps_pps_change := true, audio_sh := [],
            audio_sh_change := false, req := none } 0 0 [AvcNal.other [9]] =
        ({ sps := [1], pps := [2], sps_pps_change := false, audio_sh := [],
           audio_sh_change := false, req := none },
         [SrsFrame.video_sh (0 / 90 % 2 ^ 32) [1] [2], nf], none) ∧
      nf.is_nalu = true) ∧
    (∃ nf2,
      SrsSrtFrameBuilder.on_ts_video_avc
          { sps := [1], pps := [2], sps_pps_change := false, audio_sh := [],
            audio_sh_change := false, req := none } 0 0
          [AvcNal.sps [1], AvcNal.pps [2], AvcNal.other [9]] =
        ({ sps := [1], pps := [2], sps_pps_change := false, audio_sh := [],
           audio_sh_change := false, req := none }, [nf2], none) ∧
      nf2.is_nalu = true) :=
  ⟨(srs_srt_avc_sequence_header_emission
      { sps := [1], pps := [], sps_pps_change := true, audio_sh := [],
        audio_sh_change := false, req := none } 0 0 0 0 [9] [9] rfl).1
      (Or.inr rfl),
   ((srs_srt_avc_sequence_header_emission
      { sps := [1], pps := [2], sps_pps_change := true, audio_sh := [],
        audio_sh_change := false, req := none } 0 0 0 0 [9] [9] rfl).2
      (by decide) (by decide)).1,
   ((srs_srt_avc_sequence_header_emission
      { sps := [1], pps := [2], sps_pps_change := true, audio_sh := [],
        audio_sh_change := false, req := none } 0 0 0 0 [9] [9] rfl).2
      (by decide) (by decide)).2⟩

/-! Claim C6 -/

theorem srs_on_packet_go_cells {σ : Type} (decode : σ → List Byte → σ × Bool)
    (buf : List Byte) :
    ∀ (n i : Nat) (c : σ),
      (SrsSrtFrameBuilder.on_packet_go decode buf c i n).2.1 =
        (List.range n).map
          (fun k => (buf.drop ((i + k) * SRS_TS_PACKET_SIZE)).take SRS_TS_PACKET_SIZE) := by
  intro n
  induction n with
  | zero =>
    intro i c
    simp [SrsSrtFrameBuilder.on_packet_go]
  | succ n ih =>
    intro i c
    unfold SrsSrtFrameBuilder.on_packet_go
    dsimp only
    rw [ih]
    rw [List.range_succ_eq_map]
    simp only [List.map_cons, List.map_map]
    simp only [List.cons.injEq]
    refine ⟨by norm_num, ?_⟩
    apply List.map_congr_left
    intro k _
    have h : i + 1 + k = i + (k + 1) := by omega
    rw [h]
    simp [Function.comp]

theorem srs_on_packet_go_failed {σ : Type} (decode : σ → List Byte → σ × Bool)
    (buf : List Byte) :
    ∀ (n i : Nat) (c : σ) (j : Nat),
      j ∈ (SrsSrtFrameBuilder.on_packet_go decode buf c i n).2.2 → j < i + n := by
  intro n
  induction n with
  | zero =>
    intro i c j h
    simp [SrsSrtFrameBuilder.on_packet_go] at h
  | succ n ih =>
    intro i c j h
    unfold SrsSrtFrameBuilder.on_packet_go at h
    dsimp only at h
    split at h
    · have := ih (i + 1) _ j h
      omega
    · rcases List.mem_cons.mp h with h1 | h2
      · omega
      · have := ih (i + 1) _ j h2
        omega

theorem srs_ts_cells_flatten (buf : List Byte) :
    ∀ n, ((List.range n).map
        (fun k => (buf.drop (k * SRS_TS_PACKET_SIZE)).take SRS_TS_PACKET_SIZE)).flatten
      = buf.take (n * SRS_TS_PACKET_SIZE) := by
  intro n
  induction n with
  | zero => simp
  | succ n ih =>
    rw [List.range_succ, List.map_append, List.flatten_append]
    simp only [List.map_cons, List.map_nil, List.flatten_cons, List.flatten_nil,
      List.append_nil, ih]
    rw [Nat.succ_mul, List.take_add]

/-- C6: `SrsSrtFrameBuilder::on_packet` returns success for every input and
every decoder behaviour; the cells it feeds to the decoder are exactly the
`⌊size / 188⌋` fixed 188-byte slices of the packet, in order, the trailing
remainder bytes are fed to no cell, and every failed (logged) cell index is
within that range — decode failures never abort the loop or propagate. -/
theorem srs_srt_fb_on_packet_swallows :
    ∀ (σ : Type) (decode : σ → List Byte → σ × Bool) (ctx : σ) (pkt : SrsSrtPacket),
      (SrsSrtFrameBuilder.on_packet decode ctx pkt).2.2.2 = none ∧
      (SrsSrtFrameBuilder.on_packet decode ctx pkt).2.1 = ts_cells pkt.buffer_bytes ∧
      (SrsSrtFrameBuilder.on_packet decode ctx pkt).2.1.length
        = pkt.buffer_bytes.length / SRS_TS_PACKET_SIZE ∧
      (∀ cell ∈ (SrsSrtFrameBuilder.on_packet decode ctx pkt).2.1,
        cell.length = SRS_TS_PACKET_SIZE) ∧
      (SrsSrtFrameBuilder.on_packet decode ctx pkt).2.1.flatten
        = pkt.buffer_bytes.take
            (pkt.buffer_bytes.length / SRS_TS_PACKET_SIZE * SRS_TS_PACKET_SIZE) ∧
      (∀ j ∈ (SrsSrtFrameBuilder.on_packet decode ctx pkt).2.2.1,
        j < pkt.buffer_bytes.length / SRS_TS_PACKET_SIZE) := by
  intro σ decode ctx pkt
  have hcells : (SrsSrtFrameBuilder.on_packet decode ctx pkt).2.1
      = ts_cells pkt.buffer_bytes := by
    unfold SrsSrtFrameBuilder.on_packet ts_cells
    dsimp only
    rw [srs_on_packet_go_cells]
    simp
  refine ⟨rfl, hcells, ?_, ?_, ?_, ?_⟩
  · rw [hcells]
    simp [ts_cells]
  · intro cell hmem
    rw [hcells] at hmem
    unfold ts_cells at hmem
    simp only [List.mem_map, List.mem_range] at hmem
    obtain ⟨k, hk, rfl⟩ := hmem
    simp only [List.length_take, List.length_drop]
    unfold SRS_TS_PACKET_SIZE at hk ⊢
    omega
  · rw [hcells]
    unfold ts_cells
    exact srs_ts_cells_flatten pkt.buffer_bytes _
  · intro j hj
    unfold SrsSrtFrameBuilder.on_packet at hj
    dsimp only at hj
    have := srs_on_packet_go_failed decode pkt.buffer_bytes
      (pkt.buffer_bytes.length / SRS_TS_PACKET_SIZE) 0 ctx j hj
    omega

/-- C6 witness: a 400-byte packet with an always-failing decoder — two
cells are fed, the call still succeeds. -/
theorem srs_srt_fb_on_packet_swallows_witness :
    (SrsSrtFrameBuilder.on_packet (fun (_ : Unit) _ => ((), false)) ()
      (SrsSrtPacket.new.wrap_bytes (List.replicate 400 7))).2.2.2 = none ∧
    (SrsSrtFrameBuilder.on_packet (fun (_ : Unit) _ => ((), false)) ()
      (SrsSrtPacket.new.wrap_bytes (List.replicate 400 7))).2.1 =
      ts_cells (SrsSrtPacket.new.wrap_bytes (List.replicate 400 7)).buffer_bytes ∧
    (SrsSrtFrameBuilder.on_packet (fun (_ : Unit) _ => ((), false)) ()
      (SrsSrtPacket.new.wrap_bytes (List.replicate 400 7))).2.1.length =
      (SrsSrtPacket.new.wrap_bytes
        (List.replicate 400 7)).buffer_bytes.length / SRS_TS_PACKET_SIZE ∧
    (∀ cell ∈ (SrsSrtFrameBuilder.on_packet (fun (_ : Unit) _ => ((), false)) ()
        (SrsSrtPacket.new.wrap_bytes (List.replicate 400 7))).2.1,
      cell.length = SRS_TS_PACKET_SIZE) ∧
    (SrsSrtFrameBuilder.on_packet (fun (_ : Unit) _ => ((), false)) ()
      (SrsSrtPacket.new.wrap_bytes (List.replicate 400 7))).2.1.flatten =
      (SrsSrtPacket.new.wrap_bytes (List.replicate 400 7)).buffer_bytes.take
        ((SrsSrtPacket.new.wrap_bytes
          (List.replicate 400 7)).buffer_bytes.length / SRS_TS_PACKET_SIZE *
            SRS_TS_PACKET_SIZE) ∧
    (∀ j ∈ (SrsSrtFrameBuilder.on_packet (fun (_ : Unit) _ => ((), false)) ()
        (SrsSrtPacket.new.wrap_bytes (List.replicate 400 7))).2.2.1,
      j < (SrsSrtPacket.new.wrap_bytes
        (List.replicate 400 7)).buffer_bytes.length / SRS_TS_PACKET_SIZE) :=
  srs_srt_fb_on_packet_swallows Unit (fun _ _ => ((), false)) ()
    (SrsSrtPacket.new.wrap_bytes (List.replicate 400 7))

/-! Claim C1 -/

theorem srs_on_packet_consumers {σ : Type} (decode : σ → List Byte → σ × Bool)
    (ctx : σ) (s : SrsSrtSource) (p : SrsSrtPacket) :
    (SrsSrtSource.on_packet decode ctx s p).1.consumers =
      s.consumers.map (fun c => (c.enqueue p.copy).1) := by
  unfold SrsSrtSource.on_packet
  cases h : s.frame_builder <;> simp [h]

theorem srs_on_packets_queues {σ : Type} (decode : σ → List Byte → σ × Bool) :
    ∀ (ps : List SrsSrtPacket) (ctx : σ) (s : SrsSrtSource),
      (SrsSrtSource.on_packets decode ctx s ps).1.consumers.map SrsSrtConsumer.queue
        = s.consumers.map (fun c => c.queue ++ ps.map SrsSrtPacket.copy) := by
  intro ps
  induction ps with
  | nil =>
    intro ctx s
    simp [SrsSrtSource.on_packets]
  | cons p rest ih =>
    intro ctx s
    unfold SrsSrtSource.on_packets
    dsimp only
    rw [ih, srs_on_packet_consumers, List.map_map]
    simp only [List.map_cons]
    apply List.map_congr_left
    intro c _
    simp [Function.comp, srs_enqueue_queue]

/-- C1: `SrsSrtSource::on_packet` on a source with an attached frame builder
appends an independent `packet->copy()` to the queue of every consumer (by
position, FIFO), emits the enqueue actions in consumer-list order and the
hand-off of the original packet to the frame builder strictly after all of
them, and returns success; iterating over any list of published packets,
the queue of every consumer grows by exactly those packets, copied, in publish
order. -/
theorem srs_srt_source_on_packet_fanout :
    ∀ (σ : Type) (decode : σ → List Byte → σ × Bool) (ctx : σ)
      (s : SrsSrtSource) (p : SrsSrtPacket),
      s.frame_builder.isSome = true →
      ((SrsSrtSource.on_packet decode ctx s p).1.consumers.map SrsSrtConsumer.queue
        = s.consumers.map (fun c => c.queue ++ [p.copy])) ∧
      ((SrsSrtSource.on_packet decode ctx s p).2.2.1
        = (List.range s.consumers.length).map
            (fun i => SrsSrtEvent.enqueued i p.copy) ++
          [SrsSrtEvent.frame_builder_packet p]) ∧
      ((SrsSrtSource.on_packet decode ctx s p).2.2.2 = none) ∧
      (∀ ps : List SrsSrtPacket,
        (SrsSrtSource.on_packets decode ctx s ps).1.consumers.map SrsSrtConsumer.queue
          = s.consumers.map (fun c => c.queue ++ ps.map SrsSrtPacket.copy)) := by
  intro σ decode ctx s p h
  obtain ⟨fb, hfb⟩ := Option.isSome_iff_exists.mp h
  refine ⟨?_, ?_, ?_, fun ps => srs_on_packets_queues decode ps ctx s⟩
  · rw [srs_on_packet_consumers, List.map_map]
    apply List.map_congr_left
    intro c _
    simp [Function.comp, srs_enqueue_queue]
  · unfold SrsSrtSource.on_packet
    rw [hfb]
  · unfold SrsSrtSource.on_packet
    rw [hfb]
    rfl

/-- C1 witness: a source with two consumers (one of them with a non-empty
queue) and a frame builder, receiving one 188-byte packet. -/
theorem srs_srt_source_on_packet_fanout_witness :
    ((SrsSrtSource.on_packet (fun (_ : Unit) _ => ((), true)) ()
        { req := none, can_publish_ := false, source_id := "", pre_source_id := "",
          consumers := [SrsSrtConsumer.new,
            { queue := [SrsSrtPacket.new.wrap_bytes [1, 2]],
              should_update_source_id := false, mw_min_msgs := 0, mw_waiting := false }],
          has_bridge := true, frame_builder := some SrsSrtFrameBuilder.new }
        (SrsSrtPacket.new.wrap_bytes (List.replicate 188 9))).1.consumers.map
          SrsSrtConsumer.queue
      = [SrsSrtConsumer.new,
          { queue := [SrsSrtPacket.new.wrap_bytes [1, 2]],
            should_update_source_id := false, mw_min_msgs := 0,
            mw_waiting := false }].map
          (fun c => c.queue ++ [(SrsSrtPacket.new.wrap_bytes
            (List.replicate 188 9)).copy])) ∧
    ((SrsSrtSource.on_packet (fun (_ : Unit) _ => ((), true)) ()
        { req := none, can_publish_ := false, source_id := "", pre_source_id := "",
          consumers := [SrsSrtConsumer.new,
            { queue := [SrsSrtPacket.new.wrap_bytes [1, 2]],
              should_update_source_id := false, mw_min_msgs := 0, mw_waiting := false }],
          has_bridge := true, frame_builder := some SrsSrtFrameBuilder.new }
        (SrsSrtPacket.new.wrap_bytes (List.replicate 188 9))).2.2.1
      = (List.range 2).map
          (fun i => SrsSrtEvent.enqueued i (SrsSrtPacket.new.wrap_bytes
            (List.replicate 188 9)).copy) ++
        [SrsSrtEvent.frame_builder_packet
          (SrsSrtPacket.new.wrap_bytes (List.replicate 188 9))]) ∧
    ((SrsSrtSource.on_packet (fun (_ : Unit) _ => ((), true)) ()
        { req := none, can_publish_ := false, source_id := "", pre_source_id := "",
          consumers := [SrsSrtConsumer.new,
            { queue := [SrsSrtPacket.new.wrap_bytes [1, 2]],
              should_update_source_id := false, mw_min_msgs := 0, mw_waiting := false }],
          has_bridge := true, frame_builder := some SrsSrtFrameBuilder.new }
        (SrsSrtPacket.new.wrap_bytes (List.replicate 188 9))).2.2.2 = none) :=
  let s0 : SrsSrtSource :=
    { req := none, can_publish_ := false, source_id := "", pre_source_id := "",
      consumers := [SrsSrtConsumer.new,
        { queue := [SrsSrtPacket.new.wrap_bytes [1, 2]],
          should_update_source_id := false, mw_min_msgs := 0, mw_waiting := false }],
      has_bridge := true, frame_builder := some SrsSrtFrameBuilder.new }
  let p0 := SrsSrtPacket.new.wrap_bytes (List.replicate 188 9)
  let h := srs_srt_source_on_packet_fanout Unit (fun _ _ => ((), true)) () s0 p0 rfl
  ⟨h.1, h.2.1, h.2.2.1⟩

/-! Claim C2 -/

/-- C2: two `fetch_or_create` calls with requests sharing the same
`stream_url` (no `eliminate` in between) return the same shared handle; the
second call refreshes the auth of that source from the new request instead of
creating a new source (pool and id allocator unchanged); and when the key
is absent, `fetch_or_create` allocates a fresh source, initializes it with
the request, inserts it under the url and returns it. -/
theorem srs_srt_manager_fetch_or_create_identity :
    ∀ (m : SrsSrtSourceManager) (r1 r2 : SrsRequest),
      r1.stream_url = r2.stream_url →
      m.wf →
      (((m.fetch_or_create r1).1.fetch_or_create r2).2 = (m.fetch_or_create r1).2) ∧
      (∃ src q,
        assoc_find ((m.fetch_or_create r1).1.fetch_or_create r2).1.store
            (m.fetch_or_create r1).2 = some src ∧
        src.req = some q ∧ q.auth = r2.auth) ∧
      (((m.fetch_or_create r1).1.fetch_or_create r2).1.pool
        = (m.fetch_or_create r1).1.pool) ∧
      (((m.fetch_or_create r1).1.fetch_or_create r2).1.next_id
        = (m.fetch_or_create r1).1.next_id) ∧
      (assoc_find m.pool r1.stream_url = none →
        (m.fetch_or_create r1).2 = m.next_id ∧
        assoc_find m.store m.next_id = none ∧
        assoc_find (m.fetch_or_create r1).1.pool r1.stream_url = some m.next_id ∧
        assoc_find (m.fetch_or_create r1).1.store m.next_id
          = some (SrsSrtSource.new.init_req r1)) := by
  intro m r1 r2 hurl hwf
  cases hfind : assoc_find m.pool r1.stream_url with
  | some sid =>
    obtain ⟨src, hstore, hreq⟩ := hwf.1 r1.stream_url sid hfind
    obtain ⟨q0, hq0⟩ := Option.isSome_iff_exists.mp hreq
    have hfetch1 : m.fetch_or_create r1 =
        ({ pool := m.pool, store := assoc_set m.store sid (src.update_auth r1),
           next_id := m.next_id }, sid) := by
      unfold SrsSrtSourceManager.fetch_or_create
      rw [hfind]
      dsimp only
      rw [hstore]
    have hfind2 : assoc_find m.pool r2.stream_url = some sid := by
      rw [← hurl]; exact hfind
    have hstore2 : assoc_find (assoc_set m.store sid (src.update_auth r1)) sid
        = some (src.update_auth r1) := assoc_find_set_self m.store sid _
    have hfetch2 :
        SrsSrtSourceManager.fetch_or_create
          { pool := m.pool, store := assoc_set m.store sid (src.update_auth r1),
            next_id := m.next_id } r2 =
        ({ pool := m.pool,
           store := assoc_set (assoc_set m.store sid (src.update_auth r1)) sid
             ((src.update_auth r1).update_auth r2),
           next_id := m.next_id }, sid) := by
      unfold SrsSrtSourceManager.fetch_or_create
      dsimp only
      rw [hfind2]
      dsimp only
      rw [hstore2]
    rw [hfetch1]
    dsimp only
    rw [hfetch2]
    refine ⟨rfl, ⟨(src.update_auth r1).update_auth r2,
      (q0.update_auth r1).update_auth r2, ?_, ?_, rfl⟩, rfl, rfl, ?_⟩
    · exact assoc_find_set_self _ sid _
    · simp [SrsSrtSource.update_auth, hq0]
    · intro habs
      simp at habs
  | none =>
    have hnofresh : assoc_find m.store m.next_id = none := by
      cases hs : assoc_find m.store m.next_id with
      | none => rfl
      | some src =>
        have := hwf.2 m.next_id src hs
        omega
    have hfetch1 : m.fetch_or_create r1 =
        ({ pool := assoc_set m.pool r1.stream_url m.next_id,
           store := assoc_set m.store m.next_id (SrsSrtSource.new.init_req r1),
           next_id := m.next_id + 1 }, m.next_id) := by
      unfold SrsSrtSourceManager.fetch_or_create
      rw [hfind]
    have hfind2 : assoc_find (assoc_set m.pool r1.stream_url m.next_id) r2.stream_url
        = some m.next_id := by
      rw [← hurl]; exact assoc_find_set_self m.pool _ _
    have hstore2 : assoc_find (assoc_set m.store m.next_id (SrsSrtSource.new.init_req r1))
        m.next_id = some (SrsSrtSource.new.init_req r1) :=
      assoc_find_set_self m.store _ _
    have hfetch2 :
        SrsSrtSourceManager.fetch_or_create
          { pool := assoc_set m.pool r1.stream_url m.next_id,
            store := assoc_set m.store m.next_id (SrsSrtSource.new.init_req r1),
            next_id := m.next_id + 1 } r2 =
        ({ pool := assoc_set m.pool r1.stream_url m.next_id,
           store := assoc_set
             (assoc_set m.store m.next_id (SrsSrtSource.new.init_req r1))
             m.next_id ((SrsSrtSource.new.init_req r1).update_auth r2),
           next_id := m.next_id + 1 }, m.next_id) := by
      unfold SrsSrtSourceManager.fetch_or_create
      dsimp only
      rw [hfind2]
      dsimp only
      rw [hstore2]
    rw [hfetch1]
    dsimp only
    rw [hfetch2]
    refine ⟨rfl, ⟨(SrsSrtSource.new.init_req r1).update_auth r2,
      r1.copy.update_auth r2, ?_, rfl, rfl⟩, rfl, rfl, ?_⟩
    · exact assoc_find_set_self _ _ _
    · intro _
      exact ⟨rfl, hnofresh, assoc_find_set_self m.pool _ _, hstore2⟩

/-- C2 witness: two fetches of the same url on the empty registry. -/
theorem srs_srt_manager_fetch_or_create_identity_witness :
    (((SrsSrtSourceManager.new.fetch_or_create { stream_url := "live/a", auth := 1 }).1.fetch_or_create
        { stream_url := "live/a", auth := 2 }).2
      = (SrsSrtSourceManager.new.fetch_or_create { stream_url := "live/a", auth := 1 }).2) ∧
    (∃ src q,
      assoc_find ((SrsSrtSourceManager.new.fetch_or_create
          { stream_url := "live/a", auth := 1 }).1.fetch_or_create
          { stream_url := "live/a", auth := 2 }).1.store
        (SrsSrtSourceManager.new.fetch_or_create
          { stream_url := "live/a", auth := 1 }).2 = some src ∧
      src.req = some q ∧ q.auth = 2) ∧
    (((SrsSrtSourceManager.new.fetch_or_create
        { stream_url := "live/a", auth := 1 }).1.fetch_or_create
        { stream_url := "live/a", auth := 2 }).1.pool
      = (SrsSrtSourceManager.new.fetch_or_create
          { stream_url := "live/a", auth := 1 }).1.pool) ∧
    (((SrsSrtSourceManager.new.fetch_or_create
        { stream_url := "live/a", auth := 1 }).1.fetch_or_create
        { stream_url := "live/a", auth := 2 }).1.next_id
      = (SrsSrtSourceManager.new.fetch_or_create
          { stream_url := "live/a", auth := 1 }).1.next_id) ∧
    (assoc_find SrsSrtSourceManager.new.pool "live/a" = none →
      (SrsSrtSourceManager.new.fetch_or_create
        { stream_url := "live/a", auth := 1 }).2 = SrsSrtSourceManager.new.next_id ∧
      assoc_find SrsSrtSourceManager.new.store SrsSrtSourceManager.new.next_id = none ∧
      assoc_find (SrsSrtSourceManager.new.fetch_or_create
        { stream_url := "live/a", auth := 1 }).1.pool "live/a"
        = some SrsSrtSourceManager.new.next_id ∧
      assoc_find (SrsSrtSourceManager.new.fetch_or_create
        { stream_url := "live/a", auth := 1 }).1.store SrsSrtSourceManager.new.next_id
        = some (SrsSrtSource.new.init_req { stream_url := "live/a", auth := 1 })) :=
  srs_srt_manager_fetch_or_create_identity SrsSrtSourceManager.new
    { stream_url := "live/a", auth := 1 } { stream_url := "live/a", auth := 2 } rfl
    ⟨fun url sid h => by simp [SrsSrtSourceManager.new, assoc_find] at h,
     fun sid src h => by simp [SrsSrtSourceManager.new, assoc_find] at h⟩

/-! Claim C8 -/

theorem srs_check_audio_sh_filter (st : SrsSrtFrameBuilder) (p : Nat) :
    ((st.check_audio_sh_change p).2).filter SrsFrame.is_audio_raw = [] := by
  unfold SrsSrtFrameBuilder.check_audio_sh_change
  split <;> simp [SrsFrame.is_audio_raw]

theorem srs_on_ts_audio_go_pts :
    ∀ (frames : List AdtsFrame) (st : SrsSrtFrameBuilder) (pts idx dur r : Nat),
      (∀ f ∈ frames, f.bytes.length ≠ 0) →
      (∀ f ∈ frames, f.sound_rate = r) →
      ((SrsSrtFrameBuilder.on_ts_audio_go st pts idx dur frames).2.1.filter
          SrsFrame.is_audio_raw).map SrsFrame.ts_of
        = (List.range frames.length).map
            (fun j => pts + (idx + j) * 1024 * 1000 / aac_sample_rate_of r) := by
  intro frames
  induction frames with
  | nil =>
    intro st pts idx dur r _ _
    simp [SrsSrtFrameBuilder.on_ts_audio_go]
  | cons f rest ih =>
    intro st pts idx dur r h1 h2
    have hf : f.bytes.length ≠ 0 := h1 f (List.mem_cons_self f rest)
    have hr : f.sound_rate = r := h2 f (List.mem_cons_self f rest)
    unfold SrsSrtFrameBuilder.on_ts_audio_go
    dsimp only
    rw [if_neg hf]
    dsimp only
    rw [List.filter_append, srs_check_audio_sh_filter]
    simp only [List.nil_append, List.filter_cons, SrsSrtFrameBuilder.on_aac_frame,
      SrsFrame.is_audio_raw, if_true, List.map_cons, SrsFrame.ts_of, List.length_cons]
    rw [List.range_succ_eq_map]
    simp only [List.map_cons, List.map_map, List.cons.injEq]
    refine ⟨by rw [hr]; norm_num, ?_⟩
    rw [ih _ pts (idx + 1) _ r (fun g hg => h1 g (List.mem_cons_of_mem f hg))
      (fun g hg => h2 g (List.mem_cons_of_mem f hg))]
    apply List.map_congr_left
    intro j _
    have h : idx + 1 + j = idx + (j + 1) := by omega
    rw [h]
    simp [Function.comp]

/-- C8: for an AAC PES payload of valid ADTS frames with a uniform
`codec.sound_rate`, the i-th raw audio frame (0-based) carries
`frame_pts = base_pts + i * 1024 * 1000 / sample_rate`, where
`base_pts = msg->pts / 90` and `sample_rate` is mapped from
`codec.sound_rate` by the enumeration {5512, 11025, 22050, 44100} with
44100 as the default for every other value (so for a 48000 Hz ADTS stream,
whose `sound_rate` is not one of the first three enum values mapped to a
lower rate, the formula uses 44100). -/
theorem srs_srt_on_ts_audio_pts :
    ∀ (st : SrsSrtFrameBuilder) (msg_pts : Nat) (frames : List AdtsFrame) (r : Nat),
      (∀ f ∈ frames, f.bytes.length ≠ 0) →
      (∀ f ∈ frames, f.sound_rate = r) →
      (((st.on_ts_audio msg_pts frames).2.1.filter SrsFrame.is_audio_raw).map
          SrsFrame.ts_of
        = (List.range frames.length).map
            (fun i => msg_pts / 90 % 2 ^ 32 + i * 1024 * 1000 / aac_sample_rate_of r)) ∧
      (((st.on_ts_audio msg_pts frames).2.1.filter SrsFrame.is_audio_raw).length
        = frames.length) ∧
      ((st.on_ts_audio msg_pts frames).2.2 = none) ∧
      (aac_sample_rate_of SrsAudioSampleRate5512 = 5512 ∧
       aac_sample_rate_of SrsAudioSampleRate11025 = 11025 ∧
       aac_sample_rate_of SrsAudioSampleRate22050 = 22050 ∧
       aac_sample_rate_of SrsAudioSampleRate44100 = 44100 ∧
       (∀ v, v ≠ SrsAudioSampleRate5512 → v ≠ SrsAudioSampleRate11025 →
         v ≠ SrsAudioSampleRate22050 → aac_sample_rate_of v = 44100)) := by
  intro st msg_pts frames r h1 h2
  have hmap : ((st.on_ts_audio msg_pts frames).2.1.filter SrsFrame.is_audio_raw).map
      SrsFrame.ts_of
      = (List.range frames.length).map
          (fun i => msg_pts / 90 % 2 ^ 32 + i * 1024 * 1000 / aac_sample_rate_of r) := by
    unfold SrsSrtFrameBuilder.on_ts_audio
    dsimp only
    rw [srs_on_ts_audio_go_pts frames st (msg_pts / 90 % 2 ^ 32) 0 0 r h1 h2]
    apply List.map_congr_left
    intro j _
    norm_num
  refine ⟨hmap, ?_, rfl, by decide, by decide, by decide, by decide, ?_⟩
  · have := congrArg List.length hmap
    simpa using this
  · intro v hv1 hv2 hv3
    unfold aac_sample_rate_of
    rw [if_neg hv1, if_neg hv2, if_neg hv3]

/-- C8 witness: two one-byte ADTS frames with `sound_rate = 7` (not in the
enumeration, so the default 44100 applies), PES pts = 90000 (1 second). -/
theorem srs_srt_on_ts_audio_pts_witness :
    ((SrsSrtFrameBuilder.new.on_ts_audio 90000
        [{ bytes := [1], sound_rate := 7, sh := [0x12] },
         { bytes := [2], sound_rate := 7, sh := [0x12] }]).2.1.filter
        SrsFrame.is_audio_raw).map SrsFrame.ts_of
      = (List.range 2).map
          (fun i => 90000 / 90 % 2 ^ 32 + i * 1024 * 1000 / aac_sample_rate_of 7) ∧
    ((SrsSrtFrameBuilder.new.on_ts_audio 90000
        [{ bytes := [1], sound_rate := 7, sh := [0x12] },
         { bytes := [2], sound_rate := 7, sh := [0x12] }]).2.1.filter
        SrsFrame.is_audio_raw).length = 2 ∧
    ((SrsSrtFrameBuilder.new.on_ts_audio 90000
        [{ bytes := [1], sound_rate := 7, sh := [0x12] },
         { bytes := [2], sound_rate := 7, sh := [0x12] }]).2.2 = none) ∧
    (aac_sample_rate_of SrsAudioSampleRate5512 = 5512 ∧
     aac_sample_rate_of SrsAudioSampleRate11025 = 11025 ∧
     aac_sample_rate_of SrsAudioSampleRate22050 = 22050 ∧
     aac_sample_rate_of SrsAudioSampleRate44100 = 44100 ∧
     (∀ v, v ≠ SrsAudioSampleRate5512 → v ≠ SrsAudioSampleRate11025 →
       v ≠ SrsAudioSampleRate22050 → aac_sample_rate_of v = 44100)) :=
  srs_srt_on_ts_audio_pts SrsSrtFrameBuilder.new 90000
    [{ bytes := [1], sound_rate := 7, sh := [0x12] },
     { bytes := [2], sound_rate := 7, sh := [0x12] }] 7
    (by decide) (by decide)
